import Mathlib

/-!
# Verification of the Selene driver-lifecycle and command layer

A shallow embedding of `src/selene/core/configuration.py` and
`src/selene/core/command.py`, covering:

* the driver liveness / set / teardown strategies,
* the `_ManagedDriverDescriptor` get/set logic (lazy build, supplier calls,
  rebuild-on-dead, teardown scheduling),
* the get-url strategy's reset-not-alive-driver step,
* `Config.with_` and its implicit `driver -> ...` override,
* the failure-hook injection pipeline,
* the `press_sequentially` command builder,
* the default build-driver dispatch.

Python machine-level details are modelled explicitly: the sentinel `...`
(Ellipsis) and `None` are constructors of their own; attribute probes that can
raise are modelled with `Except`; object mutation is modelled by explicit state
passing, with counters recording how many times each side effect
(driver build, teardown registration, liveness probe, supplier call) occurred.
-/

namespace Selene

instance {ε α : Type} [DecidableEq ε] [DecidableEq α] : DecidableEq (Except ε α) :=
  fun x y =>
    match x, y with
    | .ok a, .ok b =>
      if h : a = b then .isTrue (congrArg Except.ok h)
      else .isFalse fun he => h (Except.ok.inj he)
    | .error a, .error b =>
      if h : a = b then .isTrue (congrArg Except.error h)
      else .isFalse fun he => h (Except.error.inj he)
    | .ok _, .error _ => .isFalse fun he => Except.noConfusion he
    | .error _, .ok _ => .isFalse fun he => Except.noConfusion he

/-- A driver's `service.process` probe, as read by the default liveness
strategy `driver.service.process is not None and driver.service.process.poll() is None`:

* `.error ()` — evaluating `driver.service.process` (or polling it) raises;
* `.ok none` — `driver.service.process is None`;
* `.ok (some running)` — a process object whose `poll()` returns `None`
  (still running) iff `running = true`. -/
structure DriverService where
  process : Except Unit (Option Bool)
deriving DecidableEq, Repr

/-- A (non-callable) web-driver object as probed by the strategies:
an optional `service` attribute (locally-built drivers have one, remote
drivers do not), and the `driver.window_handles is not None` probe used by the
fallback branch, which may itself raise (`.error ()`). -/
structure WebDriverObj where
  service : Option DriverService
  windowHandles : Except Unit Bool
deriving DecidableEq, Repr

/-- The values `config._is_driver_alive_strategy` /
`config._is_driver_set_strategy` can be applied to: the Python `...` sentinel,
`None`, or an actual driver object (`_DriverStrategiesExecutor.driver_instance`
exposes exactly this union for non-callable contents). -/
inductive DriverLike where
  | unsetSentinel
  | noneValue
  | webdriver (w : WebDriverObj)
deriving DecidableEq, Repr

/-- `selene.common.helpers.on_error_return_false`: run the probe and coerce
any raised error to `False` (the helper lives outside `src/`; its behavior is
fixed by the spec's "treating any error as not alive" fallback wording and by
its use sites in `configuration.py`). -/
def on_error_return_false (probe : Except Unit Bool) : Bool :=
  match probe with
  | .ok b => b
  | .error _ => false

/-- `Config._is_driver_alive_strategy` (configuration.py lines 718-723):

```
lambda driver: (
    (driver.service.process is not None and driver.service.process.poll() is None)
    if hasattr(driver, 'service')
    else on_error_return_false(lambda: driver.window_handles is not None)
)
```

For `...` and `None` the `hasattr` test fails, and the fallback
`window_handles` probe raises `AttributeError`, which `on_error_return_false`
coerces to `False`.  For a driver with a `service` attribute the probe of
`service.process` is NOT guarded: a raised error propagates (`.error`). -/
def is_driver_alive_strategy : DriverLike → Except Unit Bool
  | .unsetSentinel => .ok false
  | .noneValue => .ok false
  | .webdriver w =>
    match w.service with
    | some s =>
      match s.process with
      | .error e => .error e
      | .ok none => .ok false
      | .ok (some running) => .ok running
    | none => .ok (on_error_return_false w.windowHandles)

/-- `hasattr(driver, 'service')` for the values above. -/
def hasServiceAttr : DriverLike → Bool
  | .webdriver w => w.service.isSome
  | _ => false

/-- `Config._is_driver_set_strategy` (lines 710-712):
`lambda driver: driver is not ... and driver is not None`. -/
def is_driver_set_strategy : DriverLike → Bool
  | .unsetSentinel => false
  | .noneValue => false
  | .webdriver _ => true

/-- `driver.quit()`: terminates the managed service process (so a later
`poll()` reports an exit code, i.e. not running) and invalidates the session
(the `window_handles` probe now raises). -/
def quitWebDriver (w : WebDriverObj) : WebDriverObj :=
  { service :=
      w.service.map fun s =>
        ⟨match s.process with
         | .ok (some _) => .ok (some false)
         | other => other⟩
    windowHandles := .error () }

/-- `quit` lifted to `DriverLike` (quitting is only meaningful on a driver). -/
def quitDriverLike : DriverLike → DriverLike
  | .webdriver w => .webdriver (quitWebDriver w)
  | other => other

/-- `Config._teardown_driver_strategy` (lines 693-701):

```
lambda config: lambda driver: (
    driver.quit()
    if not config.hold_driver_at_exit
    and config._is_driver_set_strategy(driver)
    and config._is_driver_alive_strategy(driver)
    else None
)
```

Returns the driver state after the call together with whether `quit()` was
actually performed; a raising liveness probe propagates. -/
def teardown_driver_strategy (hold_driver_at_exit : Bool) (d : DriverLike) :
    Except Unit (DriverLike × Bool) :=
  if hold_driver_at_exit then .ok (d, false)
  else if is_driver_set_strategy d then
    match is_driver_alive_strategy d with
    | .error e => .error e
    | .ok alive => if alive then .ok (quitDriverLike d, true) else .ok (d, false)
  else .ok (d, false)

/-- Two consecutive invocations of the teardown strategy on the same handle,
counting how many times `quit()` ran in total. -/
def teardownTwice (hold_driver_at_exit : Bool) (d : DriverLike) :
    Except Unit (DriverLike × Nat) := do
  let (d1, q1) ← teardown_driver_strategy hold_driver_at_exit d
  let (d2, q2) ← teardown_driver_strategy hold_driver_at_exit d1
  pure (d2, (if q1 then 1 else 0) + (if q2 then 1 else 0))

/-- A driver instance produced by the default build strategy: it has a managed
`service` whose process is present and running iff `running = true`; its
session probe mirrors the process state. -/
def builtDriver (running : Bool) : DriverLike :=
  .webdriver ⟨some ⟨.ok (some running)⟩, .ok running⟩

/-! ## The managed driver box (`persistent.Box` contents)

`_ManagedDriverDescriptor` stores the driver option in a mutable
`persistent.Box`.  Its `value` is one of: `None`, the `...` sentinel, a
web-driver instance, or a zero-argument callable (supplier).  A supplier is
modelled by the driver object it produces when called. -/

inductive BoxValue where
  | noneV
  | ellipsisV
  | value (w : WebDriverObj)
  | supplier (produces : WebDriverObj)
deriving DecidableEq, Repr

/-- Python `callable(driver_box.value)`. -/
def isCallableBox : BoxValue → Bool
  | .supplier _ => true
  | _ => false

/-- `_DriverStrategiesExecutor.driver_instance` viewed through the
set strategy: `...` and `None` are "unset", anything else (driver instances
AND callables) is "set". -/
def is_driver_set_on_box : BoxValue → Bool
  | .noneV => false
  | .ellipsisV => false
  | .value _ => true
  | .supplier _ => true

/-- The observations of one `_ManagedDriverDescriptor.__get__` call:
the driver returned, the new box contents, and counters for each side effect
performed during the call. -/
structure GetOutcome where
  result : WebDriverObj
  box : BoxValue
  builds : Nat
  teardownRegs : Nat
  probes : Nat
  supplierCalls : Nat
deriving DecidableEq, Repr

/-- `_ManagedDriverDescriptor.__get__` (configuration.py lines 298-334):

```
if (driver_box.value is None
    or driver_box.value is ...
    or (config.rebuild_not_alive_driver
        and not callable(driver_box.value)
        and not config._is_driver_alive_strategy(driver_box.value))):
    driver = config.build_driver_strategy(config)
    driver_box.value = driver
    config._schedule_driver_teardown_strategy(config, lambda: driver)
value = driver_box.value
if callable(value):
    return value()
return value
```

`build` is the driver that `config.build_driver_strategy(config)` returns on
this call.  `or`/`and` short-circuiting is preserved: the liveness probe runs
only when the box holds a non-callable, non-sentinel value and
`rebuild_not_alive_driver` is on; a raising probe propagates. -/
def driverGet (rebuild_not_alive_driver : Bool) (build : WebDriverObj)
    (box : BoxValue) : Except Unit GetOutcome :=
  match box with
  | .noneV => .ok ⟨build, .value build, 1, 1, 0, 0⟩
  | .ellipsisV => .ok ⟨build, .value build, 1, 1, 0, 0⟩
  | .value w =>
    if rebuild_not_alive_driver then
      match is_driver_alive_strategy (.webdriver w) with
      | .error e => .error e
      | .ok alive =>
        if alive then .ok ⟨w, .value w, 0, 0, 1, 0⟩
        else .ok ⟨build, .value build, 1, 1, 1, 0⟩
    else .ok ⟨w, .value w, 0, 0, 0, 0⟩
  | .supplier produces => .ok ⟨produces, .supplier produces, 0, 0, 0, 1⟩

/-- `_ManagedDriverDescriptor.__set__` after init (lines 382-392), and the
direct-value branch of the init path (lines 370-379): the box value is
replaced by the assigned value, and a teardown is scheduled unless the
assigned value is callable:

```
driver_box.value = value
if not callable(value):
    config._schedule_driver_teardown_strategy(config, lambda: value)
```

Returns the new box contents and the number of teardown registrations. -/
def driverSet (v : BoxValue) : BoxValue × Nat :=
  (v, if isCallableBox v then 0 else 1)

/-- The reset-and-read portion of
`_maybe_reset_driver_then_tune_window_and_get_with_base_url`
(configuration.py lines 181-193):

```
if (config._reset_not_alive_driver_on_get_url
        and config._executor.is_driver_set
        and config._executor.is_driver_managed
        and not config._executor.is_driver_alive):
    config.driver = typing.cast(WebDriver, ...)
driver = config.driver
```

Returns whether the reset was performed together with the observations of the
subsequent `config.driver` read.  `is_driver_managed` is
`not callable(driver_instance)`, so the liveness probe runs exactly when the
box holds a set, non-callable instance and the flag is on. -/
def getUrlStep (reset_not_alive_driver_on_get_url rebuild_not_alive_driver : Bool)
    (build : WebDriverObj) (box : BoxValue) : Except Unit (Bool × GetOutcome) := do
  let needReset ←
    if reset_not_alive_driver_on_get_url
        && is_driver_set_on_box box && !(isCallableBox box) then
      match box with
      | .value w => (is_driver_alive_strategy (.webdriver w)).map fun a => !a
      | _ => pure false
    else pure false
  let box1 := if needReset then (driverSet .ellipsisV).fst else box
  let o ← driverGet rebuild_not_alive_driver build box1
  pure (needReset, o)

/-! ## `Config.with_` and the implicit driver override -/

/-- A boxed option storage with identity: `persistent.Box` objects are mutable
cells; two configs alias an option exactly when they hold the same box, which
we model by a numeric identity. -/
structure PBox where
  id : Nat
  value : BoxValue
deriving DecidableEq, Repr

/-- A value passed in `**options_to_override`: either a value destined for the
`driver` option (a driver-box content), or any other option value (whose
content is irrelevant to the driver handle). -/
inductive OptVal where
  | driverVal (v : BoxValue)
  | otherVal
deriving DecidableEq, Repr

/-- The slice of `Config` that decides the `with_` driver-reset rule: the
`_override_driver_with_all_driver_like_options` flag and the driver box. -/
structure ConfigW where
  overrideDriverWithAllDriverLikeOptions : Bool
  driverBox : PBox
deriving DecidableEq, Repr

/-- Python `'driver' in options_to_override` (dict key membership),
with the kwargs dict modelled as an association list with distinct keys. -/
def hasKey (k : String) (opts : List (String × OptVal)) : Bool :=
  opts.any fun kv => kv.fst == k

/-- Does `hay` start with `needle`? (auxiliary to the substring test) -/
def startsWithList (needle hay : List Char) : Bool :=
  match needle, hay with
  | [], _ => true
  | _ :: _, [] => false
  | n :: ns, h :: hs => (n == h) && startsWithList ns hs

/-- Does `hay` contain `needle` as a contiguous sublist? -/
def containsList (needle hay : List Char) : Bool :=
  startsWithList needle hay ||
    match hay with
    | [] => false
    | _ :: hs => containsList needle hs

/-- Python `'driver' in key` — substring membership on the key string. -/
def containsDriverSubstr (s : String) : Bool :=
  containsList "driver".toList s.toList

/-- Dict lookup in the merged `{'driver': ..., **options_to_override}`. -/
def lookupOpt (k : String) (opts : List (String × OptVal)) : Option OptVal :=
  (opts.find? fun kv => kv.fst == k).map (·.snd)

/-- Modelled from the spec: `persistent.replace`
(`selene.common.data_structures.persistent`, not under `src/`).  Per the spec's
copy-with-overrides rule and the `with_` docstring, an overridden option gets a
fresh, independent storage (a new box, holding the overridden value), while
every other option storage is shallow-copied (the box is shared).  Only the
driver box is tracked here; freshness of the new box is modelled by a new
identity. -/
def persistent_replace (cfg : ConfigW) (opts : List (String × OptVal)) : ConfigW :=
  { cfg with
    driverBox :=
      match lookupOpt "driver" opts with
      | some (.driverVal v) => ⟨cfg.driverBox.id + 1, v⟩
      | _ => cfg.driverBox }

/-- `Config.with_` (configuration.py lines 1488-1541):

```
options = (
    {'driver': ..., **options_to_override}
    if (self._override_driver_with_all_driver_like_options
        and 'driver' not in options_to_override
        and any('driver' in key for key in options_to_override))
    else options_to_override
)
return persistent.replace(self, **options)
```
-/
def with_ (cfg : ConfigW) (opts : List (String × OptVal)) : ConfigW :=
  let options :=
    if cfg.overrideDriverWithAllDriverLikeOptions
        && !(hasKey "driver" opts)
        && (opts.any fun kv => containsDriverSubstr kv.fst) then
      ("driver", OptVal.driverVal .ellipsisV) :: opts
    else opts
  persistent_replace cfg options

/-! ## Failure-hook injection -/

/-- A `TimeoutException` carrying its `msg`. -/
structure TimeoutErr where
  msg : String
deriving DecidableEq, Repr

/-- A raised `WebDriverException`, as rendered by the hooks:
`maybe_failure.__class__.__name__` and
`getattr(maybe_failure, "msg", str(maybe_failure))`. -/
structure WDErr where
  name : String
  message : String
deriving DecidableEq, Repr

/-- The slice of `Config` consumed by
`_inject_screenshot_and_page_source_pre_hooks`: the two save flags, plus the
outcome of each capture strategy when run under
`fp._either(..., or_=WebDriverException)` — either the saved path, or the
`WebDriverException` the strategy raised.  (The default strategies do file and
driver I/O; their outcome on the failure at hand is what the hooks consume.) -/
structure HookConfig where
  save_screenshot_on_failure : Bool
  save_page_source_on_failure : Bool
  screenshotCapture : Except WDErr String
  pageSourceCapture : Except WDErr String
deriving DecidableEq, Repr

/-- `Config._format_path_as_uri` on a non-Windows platform (the `os.name`
check selects the Unix branch): prepend `file://`. -/
def format_path_as_uri (path : String) : String := "file://" ++ path

/-- The parenthesized note both hooks append: the clickable URI on success, or
`'cannot be saved because of: {name}: {message}'` when the capture raised a
`WebDriverException`. -/
def captureNote (r : Except WDErr String) : String :=
  match r with
  | .ok path => format_path_as_uri path
  | .error f => "cannot be saved because of: " ++ f.name ++ ": " ++ f.message

/-- `save_and_log_screenshot` (configuration.py lines 1571-1594): a new
`TimeoutException` whose message is the original message followed by the
screenshot note. -/
def save_and_log_screenshot (c : HookConfig) (e : TimeoutErr) : TimeoutErr :=
  ⟨e.msg ++ "\nScreenshot: " ++ captureNote c.screenshotCapture⟩

/-- `save_and_log_page_source` (lines 1596-1619): a new `TimeoutException`
whose message is the original message followed by the page-source note. -/
def save_and_log_page_source (c : HookConfig) (e : TimeoutErr) : TimeoutErr :=
  ⟨e.msg ++ "\nPageSource: " ++ captureNote c.pageSourceCapture⟩

/-- Modelled from the spec: `fp.pipe` (`selene.common.fp`, not under `src/`).
Per the spec's hook-chain contract it is the left-to-right composition of the
given `(Error) -> Error` transformers; entries that are absent (`None` — a
disabled built-in hook or an unset `hook_wait_failure`) are skipped. -/
def fp_pipe (hooks : List (Option (TimeoutErr → TimeoutErr))) :
    TimeoutErr → TimeoutErr :=
  fun e => (hooks.filterMap id).foldl (fun acc f => f acc) e

/-- `Config._inject_screenshot_and_page_source_pre_hooks`
(configuration.py lines 1568-1625):

```
return fp.pipe(
    save_and_log_screenshot if self.save_screenshot_on_failure else None,
    save_and_log_page_source if self.save_page_source_on_failure else None,
    hook,
)
```
-/
def inject_screenshot_and_page_source_pre_hooks (c : HookConfig)
    (hook : Option (TimeoutErr → TimeoutErr)) : TimeoutErr → TimeoutErr :=
  fp_pipe
    [ if c.save_screenshot_on_failure then some (save_and_log_screenshot c) else none,
      if c.save_page_source_on_failure then some (save_and_log_page_source c) else none,
      hook ]

/-! ## `press_sequentially` (command.py) -/

/-- Modelled from the spec: the Named Action wrapper `Command`
(`selene.common._typing_functions`, not under `src/`): a callable unit of work
tagged with a human-readable name, `str(action) == name`.  The unit of work of
`press_sequentially` is modelled by the sequence of payloads it passes to
`actions.send_keys_to_element`. -/
structure NamedCommand where
  name : String
  sends : List String
deriving DecidableEq, Repr

/-- The selenium `Keys.END` key code. -/
def keysEND : String := ""

/-- `press_sequentially` (command.py lines 577-598):

```
def action(element):
    actions = ActionChains(element.config.driver)
    for key in text:
        actions.send_keys_to_element(element.locate(), Keys.END + key)
    actions.perform()
return Command(f'press sequentially: {text}', action)
```
-/
def press_sequentially (text : String) : NamedCommand :=
  ⟨"press sequentially: " ++ text,
   text.toList.map fun k => keysEND ++ String.singleton k⟩

/-! ## Default build-driver dispatch -/

/-- The capabilities dictionary of `config.driver_options`, restricted to the
keys the dispatch inspects (`Option` encodes key presence). -/
structure DriverCaps where
  browserName : Option String
  platformName : Option String
deriving DecidableEq, Repr

/-- The slice of `Config` read by the default build strategy's dispatch:
`None` models unset options; a `BaseOptions` object is truthy whenever
present. -/
structure BuildConfig where
  driver_name : Option String
  driver_remote_url : Option String
  driver_options : Option DriverCaps
deriving DecidableEq, Repr

/-- Python truthiness of an optional string: `None` and `''` are falsy. -/
def strTruthy : Option String → Bool
  | none => false
  | some s => !(s == "")

/-- The appium test in the dispatch:
`config.driver_options and 'platformName' in capabilities and
capabilities['platformName'].lower() in ['android', 'ios']`. -/
def optionsFlagAppium : Option DriverCaps → Bool
  | some caps =>
    match caps.platformName with
    | some p => (p.toLower == "android") || (p.toLower == "ios")
    | none => false
  | none => false

/-- The key-selection logic of
`_build_local_driver_by_name_or_remote_by_url_and_options`
(configuration.py lines 144-178): which builder the dictionary dispatch picks.

```
'appium' if (driver_name == 'appium' or <android/ios platformName in options>)
else ('remote' if (driver_remote_url or driver_name == 'remote')
      else (driver_name if driver_name
            else (options.capabilities['browserName']
                  if options and 'browserName' in options.capabilities
                  else 'chrome')))
```
-/
def chooseDriverKind (c : BuildConfig) : String :=
  if (c.driver_name == some "appium") || optionsFlagAppium c.driver_options then
    "appium"
  else if strTruthy c.driver_remote_url || (c.driver_name == some "remote") then
    "remote"
  else if strTruthy c.driver_name then
    c.driver_name.getD ""
  else
    match c.driver_options with
    | some caps =>
      match caps.browserName with
      | some b => b
      | none => "chrome"
    | none => "chrome"

end Selene

namespace Selene

/-! ## Theorems -/

/-- **C1**: for every Config with `_override_driver_with_all_driver_like_options`
left at its default `True` and a built (non-sentinel) driver stored, calling
`with_` overriding any driver-identity option (any option whose name contains
`driver`) without passing `driver` among the overrides produces a new Config
whose driver handle is reset to the unset sentinel `...` — held in a fresh box,
so it is distinct from the original's currently built driver, which the
original still holds. -/
theorem with_driver_like_override_resets_driver_handle :
    ∀ (cfg : ConfigW) (w : WebDriverObj) (opts : List (String × OptVal)),
      cfg.overrideDriverWithAllDriverLikeOptions = true →
      cfg.driverBox.value = .value w →
      hasKey "driver" opts = false →
      (opts.any fun kv => containsDriverSubstr kv.fst) = true →
      (with_ cfg opts).driverBox.value = .ellipsisV
        ∧ (with_ cfg opts).driverBox.id ≠ cfg.driverBox.id
        ∧ cfg.driverBox.value = .value w := by
  intro cfg w opts hflag hbox hnokey hdriverlike
  unfold with_ persistent_replace lookupOpt
  simp only [hflag, hnokey, hdriverlike, Bool.not_false, Bool.and_self, Bool.true_and,
    if_true, List.find?]
  refine ⟨rfl, ?_, hbox⟩
  simp [Nat.succ_ne_self]

/-- Witness for C1: `A.with_(driver_name='firefox')` on a config holding a
built chrome-like driver yields a config whose driver handle is the `...`
sentinel in a fresh box. -/
theorem with_driver_like_override_resets_driver_handle_witness :
    (with_ ⟨true, ⟨0, .value ⟨none, .ok true⟩⟩⟩
        [("driver_name", .otherVal)]).driverBox.value = BoxValue.ellipsisV
      ∧ (with_ ⟨true, ⟨0, .value ⟨none, .ok true⟩⟩⟩
          [("driver_name", .otherVal)]).driverBox.id ≠ 0
      ∧ (PBox.mk 0 (.value ⟨none, .ok true⟩)).value = .value ⟨none, .ok true⟩ :=
  with_driver_like_override_resets_driver_handle
    ⟨true, ⟨0, .value ⟨none, .ok true⟩⟩⟩ ⟨none, .ok true⟩
    [("driver_name", .otherVal)] rfl rfl (by decide) (by decide)

/-- **C2**: with the save flags at their defaults `True`, the injected hook
pipeline applies the built-in screenshot hook first, then the built-in
page-source hook, and the user-supplied `hook_wait_failure` last, so the user
hook receives the already-enriched error; and when the screenshot capture
raises a `WebDriverException`, the resulting message is the original timeout
message followed by the `cannot be saved because of` note (the capture failure
does not replace the timeout error) and still ends with the user hook's
enrichment. -/
theorem hook_chain_order_and_capture_note :
    ∀ (c : HookConfig) (h : TimeoutErr → TimeoutErr) (e : TimeoutErr),
      c.save_screenshot_on_failure = true →
      c.save_page_source_on_failure = true →
      (inject_screenshot_and_page_source_pre_hooks c (some h) e
          = h (save_and_log_page_source c (save_and_log_screenshot c e)))
        ∧ ∀ (f : WDErr) (s : String),
            c.screenshotCapture = .error f →
            (inject_screenshot_and_page_source_pre_hooks c
                (some fun err => ⟨err.msg ++ s⟩) e).msg
              = e.msg ++ "\nScreenshot: "
                  ++ ("cannot be saved because of: " ++ f.name ++ ": " ++ f.message)
                  ++ "\nPageSource: " ++ captureNote c.pageSourceCapture ++ s := by
  intro c h e hs hp
  constructor
  · simp [inject_screenshot_and_page_source_pre_hooks, fp_pipe, hs, hp]
  · intro f s hf
    obtain ⟨ssf, psf, sc, pc⟩ := c
    subst hs
    subst hp
    subst hf
    rfl

/-- Witness for C2 at a concrete config, user hook and timeout error, with a
failing screenshot capture. -/
theorem hook_chain_order_and_capture_note_witness :
    (inject_screenshot_and_page_source_pre_hooks
        ⟨true, true, .error ⟨"WebDriverException", "boom"⟩, .ok "p.html"⟩
        (some fun err => ⟨err.msg ++ "[user]"⟩) ⟨"timed out"⟩
        = (fun err => TimeoutErr.mk (err.msg ++ "[user]"))
            (save_and_log_page_source
              ⟨true, true, .error ⟨"WebDriverException", "boom"⟩, .ok "p.html"⟩
              (save_and_log_screenshot
                ⟨true, true, .error ⟨"WebDriverException", "boom"⟩, .ok "p.html"⟩
                ⟨"timed out"⟩)))
      ∧ ∀ (f : WDErr) (s : String),
          (Except.error ⟨"WebDriverException", "boom"⟩ : Except WDErr String)
              = .error f →
          (inject_screenshot_and_page_source_pre_hooks
              ⟨true, true, .error ⟨"WebDriverException", "boom"⟩, .ok "p.html"⟩
              (some fun err => ⟨err.msg ++ s⟩) ⟨"timed out"⟩).msg
            = "timed out" ++ "\nScreenshot: "
                ++ ("cannot be saved because of: " ++ f.name ++ ": " ++ f.message)
                ++ "\nPageSource: "
                ++ captureNote (Except.ok "p.html" : Except WDErr String) ++ s :=
  hook_chain_order_and_capture_note
    ⟨true, true, .error ⟨"WebDriverException", "boom"⟩, .ok "p.html"⟩
    (fun err => ⟨err.msg ++ "[user]"⟩) ⟨"timed out"⟩ rfl rfl

/-- **C3, counterexample**: the claim says the liveness strategy never throws
for any driver value it is applied to.  But the `hasattr(driver, 'service')`
branch is not error-guarded: for a driver whose `service.process` probe raises
(e.g. the attribute is missing or its accessor fails), the strategy propagates
the error instead of returning `False`. -/
theorem is_driver_alive_strategy_can_throw :
    is_driver_alive_strategy (.webdriver ⟨some ⟨.error ()⟩, .ok true⟩)
      = .error () := by
  decide

/-- **C3, amended**: the liveness strategy never throws on the fallback branch
— for any probed value without a `service` attribute (including the unset
sentinel `...` and `None`), any internal error is caught by
`on_error_return_false` and coerced to `False`, so the strategy returns a
boolean; only the `service`-attribute branch can propagate a probe error. -/
theorem is_driver_alive_no_throw_on_fallback_branch :
    ∀ d : DriverLike, hasServiceAttr d = false →
      ∃ b : Bool, is_driver_alive_strategy d = .ok b := by
  intro d hd
  cases d with
  | unsetSentinel => exact ⟨false, rfl⟩
  | noneValue => exact ⟨false, rfl⟩
  | webdriver w =>
    cases hw : w.service with
    | some s => simp [hasServiceAttr, hw] at hd
    | none =>
      exact ⟨on_error_return_false w.windowHandles,
        by simp [is_driver_alive_strategy, hw]⟩

/-- Witness for the amended C3: a service-less driver whose window-handles
probe raises is reported as not alive rather than raising. -/
theorem is_driver_alive_no_throw_on_fallback_branch_witness :
    ∃ b : Bool,
      is_driver_alive_strategy (.webdriver ⟨none, .error ()⟩) = .ok b :=
  is_driver_alive_no_throw_on_fallback_branch (.webdriver ⟨none, .error ()⟩) rfl

/-- **C4**: for every built driver instance, invoking the teardown strategy
twice performs the underlying `quit()` at most once (the first quit leaves the
instance not alive, so the second invocation no-ops); and no shutdown action
is performed at all when `hold_driver_at_exit` is set, or when the instance is
already not alive. -/
theorem teardown_idempotent_and_guarded :
    ∀ (hold running : Bool),
      (teardownTwice hold (builtDriver running)
          = .ok (if hold || !running then builtDriver running
                 else quitDriverLike (builtDriver running),
                 if !hold && running then 1 else 0))
        ∧ (if !hold && running then 1 else 0) ≤ 1
        ∧ (hold = true →
            teardown_driver_strategy hold (builtDriver running)
              = .ok (builtDriver running, false))
        ∧ (running = false →
            teardown_driver_strategy hold (builtDriver running)
              = .ok (builtDriver running, false)) := by
  decide

/-- Witness for C4: on a held-at-exit config, teardown of a live built driver
performs no quit. -/
theorem teardown_idempotent_and_guarded_witness :
    teardown_driver_strategy true (builtDriver true)
      = .ok (builtDriver true, false) :=
  (teardown_idempotent_and_guarded true true).2.2.1 rfl

/-- **C5**: for every Config whose driver handle holds the unset sentinel
(`...` or `None`), the first read of `config.driver` invokes
`build_driver_strategy` exactly once, stores the built instance in the handle,
registers one exit-time teardown, and returns the built instance; a later read
(with `rebuild_not_alive_driver` at its default `False`) returns that same
stored instance with no further build. -/
theorem driver_built_once_on_first_read :
    ∀ (build : WebDriverObj) (box : BoxValue),
      box = .noneV ∨ box = .ellipsisV →
      driverGet false build box = .ok ⟨build, .value build, 1, 1, 0, 0⟩
        ∧ ∀ build2 : WebDriverObj,
            driverGet false build2 (.value build)
              = .ok ⟨build, .value build, 0, 0, 0, 0⟩ := by
  intro build box hbox
  constructor
  · rcases hbox with h | h <;> subst h <;> rfl
  · intro build2
    rfl

/-- Witness for C5: first read on an `...`-handle builds and stores the
driver; the next read returns it without building. -/
theorem driver_built_once_on_first_read_witness :
    driverGet false ⟨none, .ok true⟩ .ellipsisV
        = .ok ⟨⟨none, .ok true⟩, .value ⟨none, .ok true⟩, 1, 1, 0, 0⟩
      ∧ ∀ build2 : WebDriverObj,
          driverGet false build2 (.value ⟨none, .ok true⟩)
            = .ok ⟨⟨none, .ok true⟩, .value ⟨none, .ok true⟩, 0, 0, 0, 0⟩ :=
  driver_built_once_on_first_read ⟨none, .ok true⟩ .ellipsisV (Or.inr rfl)

/-- **C6**: with `rebuild_not_alive_driver` enabled, a read of `config.driver`
on a handle holding a non-callable stored instance that the liveness strategy
reports dead discards the old instance, invokes `build_driver_strategy`
exactly once, stores and returns the new instance (scheduling its teardown);
and every read on a handle holding a non-callable stored instance under this
flag performs exactly one liveness probe. -/
theorem rebuild_not_alive_driver_read :
    ∀ (build d : WebDriverObj),
      is_driver_alive_strategy (.webdriver d) = .ok false →
      driverGet true build (.value d) = .ok ⟨build, .value build, 1, 1, 1, 0⟩
        ∧ ∀ (d2 : WebDriverObj) (o : GetOutcome),
            driverGet true build (.value d2) = .ok o → o.probes = 1 := by
  intro build d hdead
  constructor
  · simp [driverGet, hdead]
  · intro d2 o ho
    simp only [driverGet, if_true] at ho
    cases halive : is_driver_alive_strategy (.webdriver d2) with
    | error e => rw [halive] at ho; cases ho
    | ok alive =>
      rw [halive] at ho
      cases alive <;> simp_all <;> rw [← ho]

/-- Witness for C6: a dead stored driver (exited service process) is replaced
by a freshly built one on the next read. -/
theorem rebuild_not_alive_driver_read_witness :
    driverGet true ⟨none, .ok true⟩ (.value ⟨some ⟨.ok (some false)⟩, .ok false⟩)
        = .ok ⟨⟨none, .ok true⟩, .value ⟨none, .ok true⟩, 1, 1, 1, 0⟩
      ∧ ∀ (d2 : WebDriverObj) (o : GetOutcome),
          driverGet true ⟨none, .ok true⟩ (.value d2) = .ok o → o.probes = 1 :=
  rebuild_not_alive_driver_read ⟨none, .ok true⟩ ⟨some ⟨.ok (some false)⟩, .ok false⟩ rfl

/-- **C7**: when the driver handle holds a callable (supplier), each read of
`config.driver` re-invokes the callable and returns its fresh result, leaving
the handle unchanged (no caching, no build, no teardown registration), under
either rebuild policy; and storing a value into the driver handle registers an
exit-time teardown exactly when the value is not callable. -/
theorem supplier_read_fresh_and_no_teardown_for_callables :
    ∀ (produces build : WebDriverObj) (rebuild : Bool),
      driverGet rebuild build (.supplier produces)
          = .ok ⟨produces, .supplier produces, 0, 0, 0, 1⟩
        ∧ ∀ v : BoxValue,
            (driverSet v).snd = if isCallableBox v then 0 else 1 := by
  intro produces build rebuild
  exact ⟨rfl, fun v => rfl⟩

/-- **C8**: with `_reset_not_alive_driver_on_get_url` at its default `True`,
the get-url strategy — on a handle holding a set, managed (non-callable)
instance reported not alive — resets the handle to the `...` sentinel before
obtaining the driver, so the subsequent driver read rebuilds (one build, no
further probe); while a plain read of `config.driver` with
`rebuild_not_alive_driver` off performs no reset, no probe and no build, and
returns the dead instance unchanged. -/
theorem get_url_resets_not_alive_driver :
    ∀ (build d : WebDriverObj),
      is_driver_alive_strategy (.webdriver d) = .ok false →
      getUrlStep true false build (.value d)
          = .ok (true, ⟨build, .value build, 1, 1, 0, 0⟩)
        ∧ driverGet false build (.value d) = .ok ⟨d, .value d, 0, 0, 0, 0⟩ := by
  intro build d hdead
  constructor
  · simp [getUrlStep, is_driver_set_on_box, isCallableBox, hdead,
      Except.map, driverSet, driverGet, Except.bind, bind, pure, Except.pure]
  · rfl

/-- Witness for C8: the get-url step on a dead managed driver resets and
rebuilds; a plain read leaves it in place. -/
theorem get_url_resets_not_alive_driver_witness :
    getUrlStep true false ⟨none, .ok true⟩ (.value ⟨some ⟨.ok (some false)⟩, .ok false⟩)
        = .ok (true, ⟨⟨none, .ok true⟩, .value ⟨none, .ok true⟩, 1, 1, 0, 0⟩)
      ∧ driverGet false ⟨none, .ok true⟩ (.value ⟨some ⟨.ok (some false)⟩, .ok false⟩)
          = .ok ⟨⟨some ⟨.ok (some false)⟩, .ok false⟩,
                 .value ⟨some ⟨.ok (some false)⟩, .ok false⟩, 0, 0, 0, 0⟩ :=
  get_url_resets_not_alive_driver ⟨none, .ok true⟩
    ⟨some ⟨.ok (some false)⟩, .ok false⟩ rfl

/-- **C9**: for every string `text`, `press_sequentially(text)` returns a
Command whose name is exactly `'press sequentially: '` followed by `text`;
and the returned command closes over its own parameter — commands built from
different texts are different objects (the command determines `text`). -/
theorem press_sequentially_names_command :
    ∀ text : String,
      (press_sequentially text).name = "press sequentially: " ++ text
        ∧ ∀ t2 : String, press_sequentially text = press_sequentially t2 →
            text = t2 := by
  intro text
  constructor
  · rfl
  · intro t2 heq
    have hname : "press sequentially: " ++ text = "press sequentially: " ++ t2 :=
      congrArg NamedCommand.name heq
    have hdata := congrArg String.data hname
    simp only [String.data_append] at hdata
    have := List.append_cancel_left hdata
    exact String.ext this

end Selene

namespace Selene

/-- **C10**: in the default build strategy's dispatch, when
`driver_remote_url` is set (truthy) and the config is not flagged for appium
(`driver_name` is not `'appium'` and `driver_options` carries no android/ios
`platformName` capability), the remote builder is selected even if
`driver_name` names a local browser; and when `driver_name`,
`driver_remote_url` and `driver_options` are all unset, the dispatch falls
back to building a `'chrome'` driver. -/
theorem build_dispatch_remote_over_name_and_chrome_default :
    (∀ c : BuildConfig,
        strTruthy c.driver_remote_url = true →
        c.driver_name ≠ some "appium" →
        optionsFlagAppium c.driver_options = false →
        chooseDriverKind c = "remote")
      ∧ chooseDriverKind ⟨none, none, none⟩ = "chrome" := by
  constructor
  · intro c hurl hname hopts
    unfold chooseDriverKind
    have hbeq : (c.driver_name == some "appium") = false := by
      simpa using hname
    simp [hbeq, hopts, hurl]
  · rfl

/-- Witness for C10: a config naming the local `'chrome'` browser but with a
remote URL set dispatches to the remote builder. -/
theorem build_dispatch_remote_over_name_and_chrome_default_witness :
    chooseDriverKind ⟨some "chrome", some "http://grid/wd/hub", none⟩ = "remote"
      ∧ chooseDriverKind ⟨none, none, none⟩ = "chrome" :=
  ⟨build_dispatch_remote_over_name_and_chrome_default.1
      ⟨some "chrome", some "http://grid/wd/hub", none⟩ rfl (by decide) rfl,
   build_dispatch_remote_over_name_and_chrome_default.2⟩

end Selene
